import Mathlib

/-!
# Verification of the financial scoring/report engine

Shallow embedding of the core component of the repository (the
`TestFinancialDataService` in `test_financial_function.py`): a scoring
routine that maps a ticker's raw financial metrics to a weighted score,
a valuation category, a rationale and a rendered report.

Modelling conventions:
- Python floats are modelled as exact rationals (`ℚ`); every constant in
  the source is exactly representable (0.25, 28.5, ...), so arithmetic
  agrees with the source on all inputs appearing here.
- Optional dictionary fields become `Option ℚ`.
- The module-level mock-data dictionary and the record objects it holds
  are modelled with explicit state passing: `PyState` carries a heap of
  record values (a list indexed by "references") and a table mapping
  tickers to references, mirroring Python's name → object-reference
  semantics so that `.copy()` and in-place mutation are observable.
- Python's `str.upper`/`str.strip` are modelled on `List Char` for the
  ASCII range (tickers); `round`/`:.2f` formatting use round-half-even
  as CPython does on exactly representable values.
-/

namespace TestFinancial

/- Batteries marks the `Rat` arithmetic operations `@[irreducible]`,
which blocks kernel evaluation of concrete rational arithmetic; restore
the default reducibility for this development so that concrete runs of
the engine can be checked by `decide`/`rfl`. -/
attribute [local semireducible] Rat.add Rat.mul Rat.sub Rat.inv Rat.ofScientific

/-! ## Configuration constants (`ScoringThresholds`, `ScoringWeights`,
`ScoreValues`, `ValuationCategories`) -/

def ScoringThresholds.PE_EXCELLENT : ℚ := 15
def ScoringThresholds.PE_GOOD : ℚ := 20
def ScoringThresholds.ROE_EXCELLENT : ℚ := 20
def ScoringThresholds.ROE_GOOD : ℚ := 10
def ScoringThresholds.EV_EBITDA_EXCELLENT : ℚ := 10
def ScoringThresholds.EV_EBITDA_GOOD : ℚ := 15
def ScoringThresholds.EPS_EXCELLENT : ℚ := 5
def ScoringThresholds.EPS_GOOD : ℚ := 1

def ScoringWeights.PE_RATIO : ℚ := 0.25
def ScoringWeights.ROE : ℚ := 0.25
def ScoringWeights.EV_EBITDA : ℚ := 0.25
def ScoringWeights.EPS : ℚ := 0.25

def ScoreValues.EXCELLENT : ℕ := 100
def ScoreValues.GOOD : ℕ := 80
def ScoreValues.FAIR : ℕ := 70
def ScoreValues.POOR : ℕ := 50
def ScoreValues.VERY_POOR : ℕ := 40

def ValuationCategories.UNDERVALUED_THRESHOLD : ℚ := 80
def ValuationCategories.FAIRLY_VALUED_THRESHOLD : ℚ := 60
def ValuationCategories.UNDERVALUED : String := "Undervalued"
def ValuationCategories.FAIRLY_VALUED : String := "Fairly valued"
def ValuationCategories.OVERVALUED : String := "Overvalued"

/-! ## `FinancialMetricsScorer`: the four pure band scorers -/

def score_pe_ratio (pe_ratio : ℚ) : ℕ :=
  if pe_ratio < ScoringThresholds.PE_EXCELLENT then ScoreValues.EXCELLENT
  else if pe_ratio < ScoringThresholds.PE_GOOD then ScoreValues.GOOD
  else ScoreValues.POOR

def score_roe (roe : ℚ) : ℕ :=
  if roe > ScoringThresholds.ROE_EXCELLENT then ScoreValues.EXCELLENT
  else if roe > ScoringThresholds.ROE_GOOD then ScoreValues.GOOD
  else ScoreValues.POOR

def score_ev_ebitda (ev_ebitda : ℚ) : ℕ :=
  if ev_ebitda < ScoringThresholds.EV_EBITDA_EXCELLENT then ScoreValues.EXCELLENT
  else if ev_ebitda < ScoringThresholds.EV_EBITDA_GOOD then ScoreValues.FAIR
  else ScoreValues.VERY_POOR

def score_eps (eps : ℚ) : ℕ :=
  if eps > ScoringThresholds.EPS_EXCELLENT then ScoreValues.EXCELLENT
  else if eps > ScoringThresholds.EPS_GOOD then ScoreValues.FAIR
  else ScoreValues.VERY_POOR

/-! ## Data model -/

/-- One ticker's record in `MOCK_FINANCIAL_DATA`.  The four scored
metrics and the supplementary numeric fields are optional rationals;
`dataRetrievedAt` models the timestamp key that `analyze_stock` adds to
the copied record (absent in the stored reference data). -/
structure MetricsRecord where
  companyName : String
  peRatio : Option ℚ
  roe : Option ℚ
  evToEbitda : Option ℚ
  eps : Option ℚ
  debtToEquity : Option ℚ
  marketCap : Option ℚ
  sector : String
  industry : String
  closePrice : Option ℚ
  totalScore : Option ℚ
  fundamentalScore : Option ℚ
  technicalScore : Option ℚ
  quantScore : Option ℚ
  rank : Option ℚ
  tradeDate : String
  dataRetrievedAt : Option String := none
deriving DecidableEq, Repr

/-- `_is_valid_metric`: `value is not None and value > 0`. -/
def is_valid_metric (value : Option ℚ) : Bool :=
  match value with
  | none => false
  | some x => decide (0 < x)

/-- `_calculate_overall_score`: accumulate `band * 0.25` over the four
metrics that pass validity, recording the band in the breakdown (in the
source's insertion order peRatio, roe, evToEbitda, eps) and counting
valid metrics.  Returns `(total_weighted_score, score_breakdown,
valid_metrics_count)`. -/
def calculate_overall_score (data : MetricsRecord) :
    ℚ × List (String × ℕ) × ℕ :=
  let s0 : ℚ × List (String × ℕ) × ℕ := (0, [], 0)
  let s1 :=
    if is_valid_metric data.peRatio then
      let pe_score := score_pe_ratio (data.peRatio.getD 0)
      (s0.1 + (pe_score : ℚ) * ScoringWeights.PE_RATIO,
       s0.2.1 ++ [("peRatio", pe_score)], s0.2.2 + 1)
    else s0
  let s2 :=
    if is_valid_metric data.roe then
      let roe_score := score_roe (data.roe.getD 0)
      (s1.1 + (roe_score : ℚ) * ScoringWeights.ROE,
       s1.2.1 ++ [("roe", roe_score)], s1.2.2 + 1)
    else s1
  let s3 :=
    if is_valid_metric data.evToEbitda then
      let ev_score := score_ev_ebitda (data.evToEbitda.getD 0)
      (s2.1 + (ev_score : ℚ) * ScoringWeights.EV_EBITDA,
       s2.2.1 ++ [("evToEbitda", ev_score)], s2.2.2 + 1)
    else s2
  let s4 :=
    if is_valid_metric data.eps then
      let eps_score := score_eps (data.eps.getD 0)
      (s3.1 + (eps_score : ℚ) * ScoringWeights.EPS,
       s3.2.1 ++ [("eps", eps_score)], s3.2.2 + 1)
    else s3
  s4

/-- `_determine_valuation_category`. -/
def determine_valuation_category (score : ℚ) : String :=
  if score ≥ ValuationCategories.UNDERVALUED_THRESHOLD then
    ValuationCategories.UNDERVALUED
  else if score ≥ ValuationCategories.FAIRLY_VALUED_THRESHOLD then
    ValuationCategories.FAIRLY_VALUED
  else
    ValuationCategories.OVERVALUED

/-! ## Python string operations (`str.upper`, `str.strip`) on `List Char`

`str.upper` is modelled by mapping `Char.toUpper` (which uppercases
exactly the ASCII range; all tickers here are ASCII); `str.strip`
removes leading and trailing whitespace. -/

/-- Remove the trailing run of characters satisfying `p`. -/
def dropTrailingWhile (p : Char → Bool) : List Char → List Char
  | [] => []
  | c :: cs =>
    match dropTrailingWhile p cs with
    | [] => if p c then [] else [c]
    | d :: ds => c :: d :: ds

/-- Python `str.strip`: drop leading and trailing whitespace. -/
def pyStrip (l : List Char) : List Char :=
  dropTrailingWhile (fun c => c.isWhitespace) (l.dropWhile (fun c => c.isWhitespace))

/-- The ticker normalization performed by `analyze_stock`:
`ticker.upper().strip()`. -/
def normalize_ticker (s : String) : String :=
  String.mk (pyStrip (s.data.map Char.toUpper))

/-! ### Idempotence of ticker normalization -/

/-- `Char.ofNat` of a small scalar value has that value. -/
theorem toNat_ofNat_of_small {m : Nat} (h : m < 55296) :
    (Char.ofNat m).toNat = m := by
  unfold Char.ofNat
  rw [dif_pos (Or.inl h)]
  rfl

/-- On an ASCII lowercase letter, `Char.toUpper` subtracts 32 from the
scalar value. -/
theorem toNat_toUpper_of_lower (c : Char)
    (h : 97 ≤ c.toNat ∧ c.toNat ≤ 122) :
    (Char.toUpper c).toNat = c.toNat - 32 := by
  unfold Char.toUpper
  rw [if_pos h]
  exact toNat_ofNat_of_small (by omega)

/-- Characters that are not ASCII lowercase letters are fixed by
`Char.toUpper`. -/
theorem toUpper_of_not_lower (c : Char)
    (h : ¬(97 ≤ c.toNat ∧ c.toNat ≤ 122)) : Char.toUpper c = c := by
  unfold Char.toUpper
  rw [if_neg h]

theorem toUpper_idem (c : Char) :
    Char.toUpper (Char.toUpper c) = Char.toUpper c := by
  by_cases h : 97 ≤ c.toNat ∧ c.toNat ≤ 122
  · have hd := toNat_toUpper_of_lower c h
    exact toUpper_of_not_lower _ (by omega)
  · rw [toUpper_of_not_lower c h]
    exact toUpper_of_not_lower c h

/-- Characters with scalar value at least 65 are not whitespace. -/
theorem isWhitespace_eq_false_of_le (d : Char) (h65 : 65 ≤ d.toNat) :
    d.isWhitespace = false := by
  have h1 : ¬ d = ' ' := fun he => absurd (he ▸ h65) (by decide)
  have h2 : ¬ d = '\t' := fun he => absurd (he ▸ h65) (by decide)
  have h3 : ¬ d = '\r' := fun he => absurd (he ▸ h65) (by decide)
  have h4 : ¬ d = '\n' := fun he => absurd (he ▸ h65) (by decide)
  simp only [Char.isWhitespace]
  rw [decide_eq_false h1, decide_eq_false h2, decide_eq_false h3,
    decide_eq_false h4]
  rfl

/-- `Char.toUpper` neither creates nor destroys whitespace. -/
theorem isWhitespace_toUpper (c : Char) :
    (Char.toUpper c).isWhitespace = c.isWhitespace := by
  by_cases h : 97 ≤ c.toNat ∧ c.toNat ≤ 122
  · have hd := toNat_toUpper_of_lower c h
    rw [isWhitespace_eq_false_of_le _ (by omega),
      isWhitespace_eq_false_of_le _ (by omega)]
  · rw [toUpper_of_not_lower c h]

theorem dropWhile_dropWhile (p : Char → Bool) (l : List Char) :
    (l.dropWhile p).dropWhile p = l.dropWhile p := by
  induction l with
  | nil => rfl
  | cons c cs ih => by_cases h : p c <;> simp [List.dropWhile_cons, h, ih]

theorem dropTrailingWhile_map (p : Char → Bool) (f : Char → Char)
    (hf : ∀ c, p (f c) = p c) (l : List Char) :
    dropTrailingWhile p (l.map f) = (dropTrailingWhile p l).map f := by
  induction l with
  | nil => rfl
  | cons c cs ih =>
    simp only [List.map_cons, dropTrailingWhile]
    rw [ih]
    cases h : dropTrailingWhile p cs with
    | nil => simp only [List.map_nil, hf]; split_ifs <;> simp
    | cons d ds => simp

theorem dropTrailingWhile_idem (p : Char → Bool) (l : List Char) :
    dropTrailingWhile p (dropTrailingWhile p l) = dropTrailingWhile p l := by
  induction l with
  | nil => rfl
  | cons c cs ih =>
    cases h : dropTrailingWhile p cs with
    | nil =>
      by_cases hp : p c <;> simp [dropTrailingWhile, h, hp]
    | cons d ds =>
      rw [h] at ih
      have h1 : dropTrailingWhile p (c :: cs) = c :: d :: ds := by
        rw [dropTrailingWhile, h]
      rw [h1, dropTrailingWhile, ih]

theorem dropWhile_of_dropTrailingWhile_eq_nil (p : Char → Bool) (l : List Char)
    (h : dropTrailingWhile p l = []) : l.dropWhile p = [] := by
  induction l with
  | nil => rfl
  | cons c cs ih =>
    by_cases hp : p c
    · cases hr : dropTrailingWhile p cs with
      | nil => simp [List.dropWhile_cons, hp, ih hr]
      | cons d ds => rw [dropTrailingWhile, hr] at h; simp at h
    · exfalso
      rw [dropTrailingWhile] at h
      cases hr : dropTrailingWhile p cs <;> rw [hr] at h <;> simp [hp] at h

theorem dropWhile_dropTrailingWhile (p : Char → Bool) (l : List Char) :
    (dropTrailingWhile p l).dropWhile p = dropTrailingWhile p (l.dropWhile p) := by
  induction l with
  | nil => rfl
  | cons c cs ih =>
    by_cases hp : p c
    · cases hr : dropTrailingWhile p cs with
      | nil =>
        simp [dropTrailingWhile, hr, hp, List.dropWhile_cons,
          dropWhile_of_dropTrailingWhile_eq_nil p cs hr]
      | cons d ds =>
        rw [hr] at ih
        simp [dropTrailingWhile, hr, List.dropWhile_cons, hp, ih]
    · cases hr : dropTrailingWhile p cs with
      | nil => simp [dropTrailingWhile, hr, hp, List.dropWhile_cons]
      | cons d ds => simp [dropTrailingWhile, hr, hp, List.dropWhile_cons]

theorem pyStrip_map_toUpper (l : List Char) :
    pyStrip (l.map Char.toUpper) = (pyStrip l).map Char.toUpper := by
  unfold pyStrip
  rw [List.dropWhile_map, dropTrailingWhile_map _ _ isWhitespace_toUpper]
  have hpf : ((fun c : Char => c.isWhitespace) ∘ Char.toUpper)
      = (fun c : Char => c.isWhitespace) :=
    funext fun c => isWhitespace_toUpper c
  rw [hpf]

theorem pyStrip_idem (l : List Char) : pyStrip (pyStrip l) = pyStrip l := by
  unfold pyStrip
  rw [dropWhile_dropTrailingWhile, dropWhile_dropWhile, dropTrailingWhile_idem]

theorem map_toUpper_idem (l : List Char) :
    (l.map Char.toUpper).map Char.toUpper = l.map Char.toUpper := by
  rw [List.map_map]
  exact List.map_congr_left (fun a _ => toUpper_idem a)

/-- Normalizing a ticker twice is the same as normalizing it once. -/
theorem normalize_ticker_idem (s : String) :
    normalize_ticker (normalize_ticker s) = normalize_ticker s := by
  unfold normalize_ticker
  rw [show (String.mk (pyStrip (s.data.map Char.toUpper))).data
      = pyStrip (s.data.map Char.toUpper) from rfl]
  rw [← pyStrip_map_toUpper, map_toUpper_idem, pyStrip_idem]

/-! ## Python number formatting

Non-ASCII characters in the source file's string literals are written as
`\uXXXX` escapes reproducing the file's exact code points. -/

/-- Round a rational to the nearest integer, ties to even (CPython's
rounding for `round` and `f"{x:.Nf}"` on exactly representable
values). -/
def roundHalfEven (q : ℚ) : ℤ :=
  let f : ℤ := q.floor
  let frac : ℚ := q - f
  if frac < 1/2 then f
  else if 1/2 < frac then f + 1
  else if f % 2 = 0 then f else f + 1

/-- Python `round(x, 2)`. -/
def round2 (q : ℚ) : ℚ := (roundHalfEven (q * 100) : ℚ) / 100

/-- Python `f"{x:.2f}"`. -/
def format_2f (q : ℚ) : String :=
  let nn : ℕ := (roundHalfEven (|q| * 100)).toNat
  (if q < 0 then "-" else "") ++ toString (nn / 100) ++ "." ++
    (if nn % 100 < 10 then "0" else "") ++ toString (nn % 100)

/-- Python `f"{x:.1f}"`. -/
def format_1f (q : ℚ) : String :=
  let nn : ℕ := (roundHalfEven (|q| * 10)).toNat
  (if q < 0 then "-" else "") ++ toString (nn / 10) ++ "." ++ toString (nn % 10)

/-- Insert thousands separators into a reversed digit string. -/
def commaChunksRev : List Char → ℕ → List Char
  | [], _ => []
  | c :: cs, k =>
    if k = 3 then ',' :: c :: commaChunksRev cs 1
    else c :: commaChunksRev cs (k + 1)

/-- Python `f"{x:,.0f}"`. -/
def format_0f_commas (q : ℚ) : String :=
  let digits := (toString (roundHalfEven |q|).toNat).data
  (if q < 0 then "-" else "") ++
    String.mk ((commaChunksRev digits.reverse 0).reverse)

/-- Python `int(x)`: truncation toward zero. -/
def pyInt (q : ℚ) : ℤ := if q < 0 then -((-q).floor) else q.floor

/-- `format_market_cap`. -/
def format_market_cap : Option ℚ → String
  | none => "N/A"
  | some market_cap =>
    if market_cap ≥ 1000000000000 then
      "$" ++ format_2f (market_cap / 1000000000000) ++ "T"
    else if market_cap ≥ 1000000000 then
      "$" ++ format_2f (market_cap / 1000000000) ++ "B"
    else if market_cap ≥ 1000000 then
      "$" ++ format_2f (market_cap / 1000000) ++ "M"
    else "$" ++ format_0f_commas market_cap

/-- `get_performance_indicator`. -/
def get_performance_indicator (score : ℤ) : String :=
  if score ≥ 90 then "\u011F\u0178\u0178\u00A2 Excellent"
  else if score ≥ 80 then "\u011F\u0178\u201D\u00B5 Very Good"
  else if score ≥ 70 then "\u011F\u0178\u0178\u00A1 Good"
  else if score ≥ 60 then "\u011F\u0178\u0178\u00A0 Fair"
  else if score ≥ 50 then "\u011F\u0178\u201D\u00B4 Poor"
  else "\u00E2\u0161\u00AB Very Poor"

/-- `get_valuation_indicator`. -/
def get_valuation_indicator (valuation : String) : String :=
  if valuation = "Undervalued" then
    "\u011F\u0178\u2019\u0161 Undervalued (Potential Buy)"
  else if valuation = "Fairly valued" then
    "\u011F\u0178\u2019\u2122 Fairly Valued (Hold/Monitor)"
  else "\u00E2\u00A4\u00EF\u00B8 Overvalued (Consider Carefully)"

/-! ## Rationale generation -/

/-- Python truthiness of an optional number (`None` and `0` are falsy):
the guard of the conditional displays in
`_generate_analysis_rationale`. -/
def truthy (v : Option ℚ) : Bool :=
  match v with
  | none => false
  | some x => decide (¬ x = 0)

/-- `pe_display` in `_generate_analysis_rationale`. -/
def pe_display (data : MetricsRecord) : String :=
  if truthy data.peRatio then format_2f (data.peRatio.getD 0) else "N/A"

/-- `roe_display` in `_generate_analysis_rationale`. -/
def roe_display (data : MetricsRecord) : String :=
  if truthy data.roe then format_2f (data.roe.getD 0) ++ "%" else "N/A"

/-- `ev_display` in `_generate_analysis_rationale`. -/
def ev_display (data : MetricsRecord) : String :=
  if truthy data.evToEbitda then format_2f (data.evToEbitda.getD 0) else "N/A"

/-- `eps_display` in `_generate_analysis_rationale`. -/
def eps_display (data : MetricsRecord) : String :=
  if truthy data.eps then format_2f (data.eps.getD 0) else "N/A"

/-- `_generate_analysis_rationale`. -/
def generate_analysis_rationale (data : MetricsRecord) (score : ℚ)
    (valuation : String) (metrics_count : ℕ) : String :=
  "TEST Financial Analysis for " ++ data.companyName ++
  ": Overall score of " ++ format_1f score ++ "/100 based on " ++
  toString metrics_count ++ " key metrics. Key metrics - P/E Ratio: " ++
  pe_display data ++ ", ROE: " ++ roe_display data ++
  ", EV/EBITDA: " ++ ev_display data ++ ", EPS: $" ++ eps_display data ++
  ". Based on this analysis, the stock appears to be " ++
  valuation.toLower ++ "."

/-! ## Report rendering -/

/-- Display of an optional auxiliary number (all integers in the
reference data), `"N/A"` when absent. -/
def opt_num_display (v : Option ℚ) : String :=
  match v with
  | none => "N/A"
  | some q =>
    if q.den = 1 then toString q.num
    else toString q.num ++ "/" ++ toString q.den

/-- `_create_user_friendly_report`, applied to the fields of
`analysis_results` that it reads (`score`, `valuation`,
`scoreBreakdown`). -/
def create_user_friendly_report (financial_data : MetricsRecord)
    (overall_score : ℚ) (valuation : String)
    (score_breakdown : List (String × ℕ)) : String :=
  let header := [
    "\u011F\u0178\u201C\u0160 TEST ANALYSIS: " ++ financial_data.companyName ++
      " (" ++ financial_data.sector ++ ")",
    "\u011F\u0178\u2019\u00B0 Market Cap: " ++ format_market_cap financial_data.marketCap,
    "\u011F\u0178\u201C\u02C6 Close Price: $" ++ format_2f (financial_data.closePrice.getD 0),
    "\u011F\u0178\u2020 Rank: #" ++ opt_num_display financial_data.rank,
    ""]
  let score_lines := [
    "\u011F\u0178\u00AF Overall Score: " ++ format_1f overall_score ++ "/100 " ++
      get_performance_indicator (pyInt overall_score),
    "\u011F\u0178\u2019\u00A1 " ++ get_valuation_indicator valuation,
    ""]
  let metrics_info : List (String × String × Option ℚ × String) := [
    ("peRatio", "P/E Ratio", financial_data.peRatio, "x"),
    ("roe", "ROE", financial_data.roe, "%"),
    ("evToEbitda", "EV/EBITDA", financial_data.evToEbitda, "x"),
    ("eps", "EPS", financial_data.eps, "$")]
  let metric_lines := metrics_info.filterMap (fun info =>
    match info.2.2.1, score_breakdown.lookup info.1 with
    | some value, some score =>
      let value_str :=
        if info.2.2.2 = "$" then "$" ++ format_2f value
        else if info.2.2.2 = "%" then format_1f value ++ "%"
        else format_1f value ++ info.2.2.2
      some ("  " ++ info.2.1 ++ ": " ++ value_str ++ " " ++
        get_performance_indicator (score : ℤ))
    | _, _ => none)
  let extra := [
    "\u011F\u0178\u201C\u2039 Additional Test Data:",
    "  Fundamental Score: " ++ opt_num_display financial_data.fundamentalScore,
    "  Technical Score: " ++ opt_num_display financial_data.technicalScore,
    "  Quant Score: " ++ opt_num_display financial_data.quantScore,
    "  Total Score: " ++ opt_num_display financial_data.totalScore,
    ""]
  let recommendation :=
    if valuation = "Undervalued" then
      ["\u011F\u0178\u2019\u0161 Test Recommendation: Consider for investment"]
    else if valuation = "Fairly valued" then
      ["\u011F\u0178\u2019\u2122 Test Recommendation: Hold or monitor"]
    else ["\u00E2\u00A4\u00EF\u00B8 Test Recommendation: Proceed with caution"]
  let disclaimer := [
    "",
    "\u011F\u0178\u00A7\u00AA This is a TEST analysis using mock data",
    "\u00E2\u0161\u00A0\u00EF\u00B8 For educational and testing purposes only. Not investment advice."]
  String.intercalate "\n"
    (header ++ score_lines ++ ["\u011F\u0178\u201C\u0160 Key Metrics:"] ++
      metric_lines ++ [""] ++ extra ++ recommendation ++ disclaimer)

/-! ## Analysis pipeline -/

/-- The analysis portion of the result dictionary. -/
structure AnalysisResults where
  score : ℚ
  valuation : String
  rationale : String
  scoreBreakdown : List (String × ℕ)
  metricsAnalyzed : ℕ
  userFriendlyReport : String
deriving DecidableEq, Repr

/-- `_perform_financial_analysis`. -/
def perform_financial_analysis (financial_data : MetricsRecord) :
    AnalysisResults :=
  let r := calculate_overall_score financial_data
  let overall_score := r.1
  let score_breakdown := r.2.1
  let valid_metrics_count := r.2.2
  if valid_metrics_count = 0 then
    { score := 0,
      valuation := "Unable to evaluate",
      rationale := "Insufficient financial data available for meaningful analysis.",
      scoreBreakdown := [],
      metricsAnalyzed := 0,
      userFriendlyReport := "\u00E2\u0152 Unable to generate analysis report due to insufficient data." }
  else
    let valuation_category := determine_valuation_category overall_score
    let analysis_rationale := generate_analysis_rationale financial_data
      overall_score valuation_category valid_metrics_count
    let rounded := round2 overall_score
    { score := rounded,
      valuation := valuation_category,
      rationale := analysis_rationale,
      scoreBreakdown := score_breakdown,
      metricsAnalyzed := valid_metrics_count,
      userFriendlyReport := create_user_friendly_report financial_data
        rounded valuation_category score_breakdown }

/-! ## Module state and full pipeline

`PyState` is the explicit-state model of the Python module: `heap` holds
the record objects (indices play the role of object references), `table`
is the `MOCK_FINANCIAL_DATA` dictionary mapping each ticker to the
reference of its record.  A well-formed state has every table reference
in range of the heap. -/

structure PyState where
  table : List (String × ℕ)
  heap : List MetricsRecord
deriving DecidableEq, Repr

/-- The result dictionary of `analyze_stock`: either a success record
(whose `data` is the record object `dataRef` merged with the analysis
fields) or an error record from `_create_error_response`. -/
inductive AnalyzeResponse where
  | ok (ticker : String) (timestamp : String) (data_source : String)
      (dataRef : ℕ) (analysis : AnalysisResults)
  | err (error : String) (timestamp : String) (data_source : String)
deriving DecidableEq, Repr

/-- The `success` field of the result dictionary. -/
def AnalyzeResponse.success : AnalyzeResponse → Bool
  | .ok .. => true
  | .err .. => false

/-- The analysis fields of a success result. -/
def AnalyzeResponse.analysisPart : AnalyzeResponse → Option AnalysisResults
  | .ok _ _ _ _ a => some a
  | .err .. => none

/-- The `error` field of a failure result. -/
def AnalyzeResponse.errorPart : AnalyzeResponse → Option String
  | .ok .. => none
  | .err e _ _ => some e

/-- `_create_error_response`. -/
def create_error_response (error_message : String) (now : String) :
    AnalyzeResponse :=
  .err error_message now "mock_data"

/-- `_get_mock_financial_data`: look the ticker up in the dictionary and
return `record.copy()` — a fresh reference (`st.heap.length`) holding the
same record value, allocated at the end of the heap.  Returns `none` for
an unknown ticker (`None` in the source). -/
def get_mock_financial_data (st : PyState) (ticker : String) :
    Option (ℕ × MetricsRecord) × PyState :=
  match st.table.lookup ticker with
  | none => (none, st)
  | some r =>
    match st.heap[r]? with
    | none => (none, st)
    | some stored =>
      (some (st.heap.length, stored), ⟨st.table, st.heap ++ [stored]⟩)

/-- `analyze_stock`.  `now` stands for `datetime.now().isoformat()`,
made an explicit argument; it is used both as the `dataRetrievedAt`
stamp on the copied record and as the result timestamp. -/
def analyze_stock (st : PyState) (now : String) (ticker0 : String) :
    AnalyzeResponse × PyState :=
  let ticker := normalize_ticker ticker0
  if ticker = "" then
    (create_error_response "Ticker symbol is required" now, st)
  else
    match get_mock_financial_data st ticker with
    | (none, st1) =>
      (create_error_response
        ("Mock data not available for \x27" ++ ticker ++
          "\x27. Available tickers: " ++
          String.intercalate ", " (st.table.map Prod.fst)) now, st1)
    | (some (ref, stored), st1) =>
      let updated := { stored with dataRetrievedAt := some now }
      let st2 : PyState := ⟨st1.table, st1.heap.set ref updated⟩
      (.ok ticker now "mock_data" ref (perform_financial_analysis updated),
        st2)

/-! ## The mock reference data -/

def AAPL_record : MetricsRecord :=
  { companyName := "Apple Inc.", peRatio := some 28.5, roe := some 22.4,
    evToEbitda := some 18.2, eps := some 6.05, debtToEquity := some 0.31,
    marketCap := some 2800000000000, sector := "Technology",
    industry := "Consumer Electronics", closePrice := some 175.84,
    totalScore := some 85, fundamentalScore := some 82,
    technicalScore := some 88, quantScore := some 85, rank := some 15,
    tradeDate := "2024-01-15" }

def MSFT_record : MetricsRecord :=
  { companyName := "Microsoft Corporation", peRatio := some 32.1,
    roe := some 18.7, evToEbitda := some 22.4, eps := some 9.65,
    debtToEquity := some 0.47, marketCap := some 2750000000000,
    sector := "Technology", industry := "Software",
    closePrice := some 370.73, totalScore := some 78,
    fundamentalScore := some 75, technicalScore := some 82,
    quantScore := some 77, rank := some 28, tradeDate := "2024-01-15" }

def GOOGL_record : MetricsRecord :=
  { companyName := "Alphabet Inc.", peRatio := some 24.8, roe := some 15.2,
    evToEbitda := some 14.7, eps := some 5.80, debtToEquity := some 0.12,
    marketCap := some 1650000000000, sector := "Technology",
    industry := "Internet Services", closePrice := some 139.69,
    totalScore := some 82, fundamentalScore := some 80,
    technicalScore := some 85, quantScore := some 81, rank := some 20,
    tradeDate := "2024-01-15" }

def TSLA_record : MetricsRecord :=
  { companyName := "Tesla Inc.", peRatio := some 48.9, roe := some 19.3,
    evToEbitda := some 32.1, eps := some 4.30, debtToEquity := some 0.17,
    marketCap := some 650000000000, sector := "Consumer Discretionary",
    industry := "Electric Vehicles", closePrice := some 207.83,
    totalScore := some 65, fundamentalScore := some 60,
    technicalScore := some 72, quantScore := some 63, rank := some 95,
    tradeDate := "2024-01-15" }

def NVDA_record : MetricsRecord :=
  { companyName := "NVIDIA Corporation", peRatio := some 64.2,
    roe := some 28.1, evToEbitda := some 45.3, eps := some 12.28,
    debtToEquity := some 0.24, marketCap := some 1750000000000,
    sector := "Technology", industry := "Semiconductors",
    closePrice := some 722.48, totalScore := some 70,
    fundamentalScore := some 68, technicalScore := some 75,
    quantScore := some 67, rank := some 75, tradeDate := "2024-01-15" }

def JPM_record : MetricsRecord :=
  { companyName := "JPMorgan Chase & Co.", peRatio := some 12.8,
    roe := some 16.4, evToEbitda := some 8.9, eps := some 15.36,
    debtToEquity := some 1.18, marketCap := some 485000000000,
    sector := "Financial Services", industry := "Banking",
    closePrice := some 168.12, totalScore := some 88,
    fundamentalScore := some 92, technicalScore := some 85,
    quantScore := some 87, rank := some 8, tradeDate := "2024-01-15" }

def WMT_record : MetricsRecord :=
  { companyName := "Walmart Inc.", peRatio := some 26.7, roe := some 12.8,
    evToEbitda := some 12.4, eps := some 2.32, debtToEquity := some 0.56,
    marketCap := some 460000000000, sector := "Consumer Staples",
    industry := "Retail", closePrice := some 165.89, totalScore := some 75,
    fundamentalScore := some 78, technicalScore := some 73,
    quantScore := some 74, rank := some 45, tradeDate := "2024-01-15" }

/-- The initial module state: the `MOCK_FINANCIAL_DATA` dictionary with
its seven records (insertion order of the source), each at its own heap
reference. -/
def initState : PyState :=
  { table := [("AAPL", 0), ("MSFT", 1), ("GOOGL", 2), ("TSLA", 3),
      ("NVDA", 4), ("JPM", 5), ("WMT", 6)],
    heap := [AAPL_record, MSFT_record, GOOGL_record, TSLA_record,
      NVDA_record, JPM_record, WMT_record] }

/-! ## Helper facts -/

/-- Every band score of the four scorers is at most 100. -/
theorem score_pe_ratio_le (x : ℚ) : score_pe_ratio x ≤ 100 := by
  unfold score_pe_ratio ScoreValues.EXCELLENT ScoreValues.GOOD ScoreValues.POOR
  split_ifs <;> omega

theorem score_roe_le (x : ℚ) : score_roe x ≤ 100 := by
  unfold score_roe ScoreValues.EXCELLENT ScoreValues.GOOD ScoreValues.POOR
  split_ifs <;> omega

theorem score_ev_ebitda_le (x : ℚ) : score_ev_ebitda x ≤ 100 := by
  unfold score_ev_ebitda ScoreValues.EXCELLENT ScoreValues.FAIR ScoreValues.VERY_POOR
  split_ifs <;> omega

theorem score_eps_le (x : ℚ) : score_eps x ≤ 100 := by
  unfold score_eps ScoreValues.EXCELLENT ScoreValues.FAIR ScoreValues.VERY_POOR
  split_ifs <;> omega

/-- `f"{x:.2f}"` always contains a decimal point, hence is never
`"N/A"`. -/
theorem format_2f_ne_NA (q : ℚ) : format_2f q ≠ "N/A" := by
  intro h
  have hd : ('.' : Char) ∈ (format_2f q).data := by
    unfold format_2f
    simp only [String.data_append, List.mem_append]
    have hp : ('.' : Char) ∈ (".".data : List Char) := by decide
    tauto
  rw [h] at hd
  exact absurd hd (by decide)

/-- `_perform_financial_analysis` does not read the `dataRetrievedAt`
stamp. -/
theorem perform_financial_analysis_stamp (rec : MetricsRecord)
    (x : Option String) :
    perform_financial_analysis { rec with dataRetrievedAt := x }
      = perform_financial_analysis rec := rfl

/-! ## The claims -/

set_option maxRecDepth 8000 in
/-- **C1**: for the ticker `"AAPL"` with the repository record
peRatio=28.5, roe=22.4, evToEbitda=18.2, eps=6.05 (all four valid),
`analyze` returns a success result whose scoreBreakdown is
peRatio=50, roe=100, evToEbitda=40, eps=100, whose overall score equals
(50+100+40+100)*0.25 = 72.5, whose metricsAnalyzed is 4, and whose
valuation is "Fairly valued". -/
theorem claim_C1 (now : String) :
    (analyze_stock initState now "AAPL").1.success = true
    ∧ (analyze_stock initState now "AAPL").1.analysisPart.map
        (fun a => a.scoreBreakdown)
      = some [("peRatio", 50), ("roe", 100), ("evToEbitda", 40), ("eps", 100)]
    ∧ (analyze_stock initState now "AAPL").1.analysisPart.map (fun a => a.score)
      = some ((50 + 100 + 40 + 100) * (0.25 : ℚ))
    ∧ (analyze_stock initState now "AAPL").1.analysisPart.map (fun a => a.score)
      = some 72.5
    ∧ (analyze_stock initState now "AAPL").1.analysisPart.map
        (fun a => a.metricsAnalyzed) = some 4
    ∧ (analyze_stock initState now "AAPL").1.analysisPart.map
        (fun a => a.valuation) = some "Fairly valued" := by
  have h : (analyze_stock initState now "AAPL").1
      = .ok "AAPL" now "mock_data" 7 (perform_financial_analysis AAPL_record) :=
    rfl
  rw [h]
  refine ⟨rfl, ?_, ?_, ?_, ?_, ?_⟩ <;>
    (simp only [AnalyzeResponse.analysisPart, Option.map_some]
     decide)

/-- **C2**: for every positive input, each scorer returns exactly the
band fixed by strict threshold comparison, and each boundary value falls
into the lower band (P/E 15.0 → 80, ROE 20.0 → 80, EV/EBITDA 10.0 → 70,
EPS 5.0 → 70). -/
theorem claim_C2 (x : ℚ) (hx : 0 < x) :
    ((x < 15 → score_pe_ratio x = 100)
      ∧ (15 ≤ x → x < 20 → score_pe_ratio x = 80)
      ∧ (20 ≤ x → score_pe_ratio x = 50))
    ∧ ((20 < x → score_roe x = 100)
      ∧ (10 < x → x ≤ 20 → score_roe x = 80)
      ∧ (x ≤ 10 → score_roe x = 50))
    ∧ ((x < 10 → score_ev_ebitda x = 100)
      ∧ (10 ≤ x → x < 15 → score_ev_ebitda x = 70)
      ∧ (15 ≤ x → score_ev_ebitda x = 40))
    ∧ ((5 < x → score_eps x = 100)
      ∧ (1 < x → x ≤ 5 → score_eps x = 70)
      ∧ (x ≤ 1 → score_eps x = 40))
    ∧ score_pe_ratio 15 = 80 ∧ score_roe 20 = 80
    ∧ score_ev_ebitda 10 = 70 ∧ score_eps 5 = 70 := by
  refine ⟨⟨?_, ?_, ?_⟩, ⟨?_, ?_, ?_⟩, ⟨?_, ?_, ?_⟩, ⟨?_, ?_, ?_⟩,
    by decide, by decide, by decide, by decide⟩ <;>
    (intros
     simp only [score_pe_ratio, score_roe, score_ev_ebitda, score_eps,
       ScoringThresholds.PE_EXCELLENT, ScoringThresholds.PE_GOOD,
       ScoringThresholds.ROE_EXCELLENT, ScoringThresholds.ROE_GOOD,
       ScoringThresholds.EV_EBITDA_EXCELLENT, ScoringThresholds.EV_EBITDA_GOOD,
       ScoringThresholds.EPS_EXCELLENT, ScoringThresholds.EPS_GOOD]
     split_ifs <;> first | rfl | linarith)

/-- **C2 witness**: the scorers evaluated at the concrete positive
input 3. -/
theorem claim_C2_witness :
    score_pe_ratio 3 = 100 ∧ score_eps 3 = 70 := by
  have h := claim_C2 3 (by norm_num)
  exact ⟨h.1.1 (by norm_num), h.2.2.2.1.2.1 (by norm_num) (by norm_num)⟩

/-- **C3**: the valuation classifier maps every overall score to exactly
one category: "Undervalued" iff score ≥ 80, "Fairly valued" iff
60 ≤ score < 80, "Overvalued" iff score < 60. -/
theorem claim_C3 (score : ℚ) :
    (determine_valuation_category score = "Undervalued" ↔ 80 ≤ score)
    ∧ (determine_valuation_category score = "Fairly valued"
        ↔ 60 ≤ score ∧ score < 80)
    ∧ (determine_valuation_category score = "Overvalued" ↔ score < 60) := by
  unfold determine_valuation_category
    ValuationCategories.UNDERVALUED_THRESHOLD
    ValuationCategories.FAIRLY_VALUED_THRESHOLD
    ValuationCategories.UNDERVALUED ValuationCategories.FAIRLY_VALUED
    ValuationCategories.OVERVALUED
  split_ifs with h1 h2
  · refine ⟨⟨fun _ => h1, fun _ => rfl⟩, ⟨fun hs => ?_, fun hs => ?_⟩,
      ⟨fun hs => ?_, fun hs => ?_⟩⟩
    · exact absurd hs (by decide)
    · exact absurd hs.2 (not_lt.mpr h1)
    · exact absurd hs (by decide)
    · exact absurd hs (not_lt.mpr (by linarith))
  · refine ⟨⟨fun hs => ?_, fun hs => ?_⟩, ⟨fun _ => ⟨h2, ?_⟩, fun _ => rfl⟩,
      ⟨fun hs => ?_, fun hs => ?_⟩⟩
    · exact absurd hs (by decide)
    · exact absurd hs h1
    · exact lt_of_not_ge h1
    · exact absurd hs (by decide)
    · exact absurd hs (not_lt.mpr h2)
  · refine ⟨⟨fun hs => ?_, fun hs => ?_⟩, ⟨fun hs => ?_, fun hs => ?_⟩,
      ⟨fun _ => ?_, fun _ => rfl⟩⟩
    · exact absurd hs (by decide)
    · exact absurd hs h1
    · exact absurd hs (by decide)
    · exact absurd hs.1 h2
    · exact lt_of_not_ge h2

/-- **C7**: ticker lookup is case-insensitive and whitespace-trimmed:
for every ticker string `t`, `analyze` produces the same result (and the
same final state) on `t` as on the uppercased, trimmed form of `t`; in
particular `analyze " aapl "` and `analyze "AAPL"` resolve to the same
result. -/
theorem claim_C7 (st : PyState) (now t : String) :
    analyze_stock st now t = analyze_stock st now (normalize_ticker t) := by
  unfold analyze_stock
  rw [normalize_ticker_idem]

/-- **C9**: an empty or all-whitespace ticker produces a failure record
with `success = false` and message "Ticker symbol is required", an error
shape distinct from the not-found message (which lists the available
tickers). -/
theorem claim_C9 (st : PyState) (now t : String)
    (h : normalize_ticker t = "") :
    analyze_stock st now t
      = (.err "Ticker symbol is required" now "mock_data", st)
    ∧ (analyze_stock st now t).1.success = false
    ∧ (∀ u : String,
        ("Ticker symbol is required" : String)
          ≠ "Mock data not available for \x27" ++ u
            ++ "\x27. Available tickers: AAPL, MSFT, GOOGL, TSLA, NVDA, JPM, WMT") := by
  have h1 : analyze_stock st now t
      = (.err "Ticker symbol is required" now "mock_data", st) := by
    unfold analyze_stock create_error_response
    rw [h]
    simp
  refine ⟨h1, by rw [h1]; rfl, fun u heq => ?_⟩
  have hlen := congrArg String.length heq
  rw [String.length_append, String.length_append] at hlen
  have e0 : ("Ticker symbol is required" : String).length = 25 := rfl
  have e1 : ("Mock data not available for \x27" : String).length = 29 := rfl
  rw [e0, e1] at hlen
  omega

/-- **C9 witness**: the empty-ticker error at the concrete input
`"   "`. -/
theorem claim_C9_witness :
    analyze_stock initState "T" "   "
      = (.err "Ticker symbol is required" "T" "mock_data", initState) :=
  (claim_C9 initState "T" "   " (by decide)).1

/-- **C6**: for every ticker whose normalized form is non-empty and
absent from the repository, `analyze` returns a structured failure with
`success = false` whose error message names the unresolved ticker and
says the data is not available, and the module state is unchanged (the
embedding is total, so no fault escapes the engine). -/
theorem claim_C6 (st : PyState) (now t : String)
    (htab : st.table = initState.table)
    (hne : normalize_ticker t ≠ "")
    (hnf : st.table.lookup (normalize_ticker t) = none) :
    (analyze_stock st now t).1
      = .err ("Mock data not available for \x27" ++ normalize_ticker t
          ++ "\x27. Available tickers: AAPL, MSFT, GOOGL, TSLA, NVDA, JPM, WMT")
          now "mock_data"
    ∧ (analyze_stock st now t).1.success = false
    ∧ (∃ a b : String, (analyze_stock st now t).1.errorPart
        = some (a ++ (normalize_ticker t ++ b)))
    ∧ (analyze_stock st now t).2 = st := by
  have hkeys : String.intercalate ", " (st.table.map Prod.fst)
      = "AAPL, MSFT, GOOGL, TSLA, NVDA, JPM, WMT" := by
    rw [htab]
    rfl
  have hmain : analyze_stock st now t
      = (.err ("Mock data not available for \x27" ++ normalize_ticker t
          ++ "\x27. Available tickers: AAPL, MSFT, GOOGL, TSLA, NVDA, JPM, WMT")
          now "mock_data", st) := by
    unfold analyze_stock get_mock_financial_data create_error_response
    rw [if_neg hne, hnf, hkeys, String.append_assoc]
    rfl
  rw [hmain]
  refine ⟨rfl, rfl, ⟨"Mock data not available for \x27",
    "\x27. Available tickers: AAPL, MSFT, GOOGL, TSLA, NVDA, JPM, WMT",
    ?_⟩, rfl⟩
  show some (("Mock data not available for \x27" ++ normalize_ticker t)
      ++ "\x27. Available tickers: AAPL, MSFT, GOOGL, TSLA, NVDA, JPM, WMT")
    = _
  rw [String.append_assoc]

/-- **C6 witness**: the not-found error at the concrete unknown ticker
`"XYZ"`. -/
theorem claim_C6_witness :
    (analyze_stock initState "T" "XYZ").1
      = .err ("Mock data not available for \x27" ++ normalize_ticker "XYZ"
          ++ "\x27. Available tickers: AAPL, MSFT, GOOGL, TSLA, NVDA, JPM, WMT")
          "T" "mock_data"
    ∧ (analyze_stock initState "T" "XYZ").2 = initState :=
  ((claim_C6 initState "T" "XYZ" rfl (by decide) rfl).imp id
    (fun hc => hc.2.2))

/-- **C4**: a resolvable record none of whose four metrics is valid
yields a success result (not an error) with score 0, valuation "Unable
to evaluate", empty breakdown, zero metrics analyzed, the
insufficient-data rationale, and the fixed could-not-generate report
string. -/
theorem claim_C4 (st : PyState) (now t : String) (r : ℕ)
    (stored : MetricsRecord)
    (hne : normalize_ticker t ≠ "")
    (htab : st.table.lookup (normalize_ticker t) = some r)
    (hheap : st.heap[r]? = some stored)
    (hpe : is_valid_metric stored.peRatio = false)
    (hroe : is_valid_metric stored.roe = false)
    (hev : is_valid_metric stored.evToEbitda = false)
    (heps : is_valid_metric stored.eps = false) :
    (analyze_stock st now t).1
      = .ok (normalize_ticker t) now "mock_data" st.heap.length
          { score := 0, valuation := "Unable to evaluate",
            rationale := "Insufficient financial data available for meaningful analysis.",
            scoreBreakdown := [], metricsAnalyzed := 0,
            userFriendlyReport := "\u00E2\u0152 Unable to generate analysis report due to insufficient data." }
    ∧ (analyze_stock st now t).1.success = true := by
  have hcalc : calculate_overall_score stored = (0, [], 0) := by
    simp only [calculate_overall_score, hpe, hroe, hev, heps]
    simp
  have hperf : perform_financial_analysis stored
      = { score := 0, valuation := "Unable to evaluate",
          rationale := "Insufficient financial data available for meaningful analysis.",
          scoreBreakdown := [], metricsAnalyzed := 0,
          userFriendlyReport := "\u00E2\u0152 Unable to generate analysis report due to insufficient data." } := by
    unfold perform_financial_analysis
    rw [hcalc]
    rfl
  have hget : get_mock_financial_data st (normalize_ticker t)
      = (some (st.heap.length, stored), ⟨st.table, st.heap ++ [stored]⟩) := by
    simp only [get_mock_financial_data, htab, hheap]
  have hmain : (analyze_stock st now t).1
      = .ok (normalize_ticker t) now "mock_data" st.heap.length
          (perform_financial_analysis stored) := by
    unfold analyze_stock
    rw [if_neg hne, hget]
    simp only [perform_financial_analysis_stamp]
  rw [hmain, hperf]
  exact ⟨rfl, rfl⟩

/-- The record and state used to witness C4: a ticker whose four scored
metrics are all missing. -/
def NODATA_record : MetricsRecord :=
  { companyName := "No Data Corp.", peRatio := none, roe := none,
    evToEbitda := none, eps := none, debtToEquity := none,
    marketCap := none, sector := "Unknown", industry := "Unknown",
    closePrice := none, totalScore := none, fundamentalScore := none,
    technicalScore := none, quantScore := none, rank := none,
    tradeDate := "2024-01-15" }

def NODATA_state : PyState :=
  { table := [("ZZZ", 0)], heap := [NODATA_record] }

/-- **C4 witness**: the degenerate success result at the concrete
all-invalid record. -/
theorem claim_C4_witness :
    (analyze_stock NODATA_state "T" " zzz ").1
      = .ok (normalize_ticker " zzz ") "T" "mock_data" 1
          { score := 0, valuation := "Unable to evaluate",
            rationale := "Insufficient financial data available for meaningful analysis.",
            scoreBreakdown := [], metricsAnalyzed := 0,
            userFriendlyReport := "\u00E2\u0152 Unable to generate analysis report due to insufficient data." }
    ∧ (analyze_stock NODATA_state "T" " zzz ").1.success = true :=
  claim_C4 NODATA_state "T" " zzz " 0 NODATA_record (by decide) rfl rfl
    rfl rfl rfl rfl

/-- **C8**: a call to `analyze` leaves the reference table untouched and
every pre-existing heap record unchanged; on success the record placed
in the result is a fresh copy (reference `st.heap.length`) carrying the
`dataRetrievedAt` stamp, while the stored record keeps its original
value — so repeated or parallel calls read identical reference data. -/
theorem claim_C8 (st : PyState) (now t : String) :
    (analyze_stock st now t).2.table = st.table
    ∧ (∀ i, i < st.heap.length →
        (analyze_stock st now t).2.heap[i]? = st.heap[i]?)
    ∧ (∀ r stored, st.table.lookup (normalize_ticker t) = some r →
        st.heap[r]? = some stored →
        normalize_ticker t ≠ "" →
        (analyze_stock st now t).1
          = .ok (normalize_ticker t) now "mock_data" st.heap.length
              (perform_financial_analysis
                { stored with dataRetrievedAt := some now })
        ∧ (analyze_stock st now t).2.heap[st.heap.length]?
            = some { stored with dataRetrievedAt := some now }
        ∧ (analyze_stock st now t).2.heap[r]? = some stored) := by
  by_cases hemp : normalize_ticker t = ""
  · have hmain : analyze_stock st now t
        = (.err "Ticker symbol is required" now "mock_data", st) := by
      unfold analyze_stock create_error_response
      rw [hemp]
      simp
    rw [hmain]
    exact ⟨rfl, fun i _ => rfl, fun r stored _ _ h3 => absurd hemp h3⟩
  · cases hlk : st.table.lookup (normalize_ticker t) with
    | none =>
      have hget : get_mock_financial_data st (normalize_ticker t)
          = (none, st) := by
        simp only [get_mock_financial_data, hlk]
      have hmain : analyze_stock st now t
          = (create_error_response
              ("Mock data not available for \x27" ++ normalize_ticker t
                ++ "\x27. Available tickers: "
                ++ String.intercalate ", " (st.table.map Prod.fst)) now, st) := by
        unfold analyze_stock
        rw [if_neg hemp, hget]
      rw [hmain]
      refine ⟨rfl, fun i _ => rfl, fun r stored h1 _ _ => ?_⟩
      exact Option.noConfusion h1
    | some r0 =>
      cases hhp : st.heap[r0]? with
      | none =>
        have hget : get_mock_financial_data st (normalize_ticker t)
            = (none, st) := by
          simp only [get_mock_financial_data, hlk, hhp]
        have hmain : analyze_stock st now t
            = (create_error_response
                ("Mock data not available for \x27" ++ normalize_ticker t
                  ++ "\x27. Available tickers: "
                  ++ String.intercalate ", " (st.table.map Prod.fst)) now,
               st) := by
          unfold analyze_stock
          rw [if_neg hemp, hget]
        rw [hmain]
        refine ⟨rfl, fun i _ => rfl, fun r stored h1 h2 _ => ?_⟩
        injection h1 with hr
        subst hr
        rw [hhp] at h2
        exact Option.noConfusion h2
      | some stored0 =>
        have hget : get_mock_financial_data st (normalize_ticker t)
            = (some (st.heap.length, stored0),
               ⟨st.table, st.heap ++ [stored0]⟩) := by
          simp only [get_mock_financial_data, hlk, hhp]
        have hmain : analyze_stock st now t
            = (.ok (normalize_ticker t) now "mock_data" st.heap.length
                (perform_financial_analysis
                  { stored0 with dataRetrievedAt := some now }),
               ⟨st.table, (st.heap ++ [stored0]).set st.heap.length
                  { stored0 with dataRetrievedAt := some now }⟩) := by
          unfold analyze_stock
          rw [if_neg hemp, hget]
        rw [hmain]
        refine ⟨rfl, fun i hi => ?_, fun r stored h1 h2 _ => ?_⟩
        · show ((st.heap ++ [stored0]).set st.heap.length
              { stored0 with dataRetrievedAt := some now })[i]?
            = st.heap[i]?
          rw [List.getElem?_set_ne (by omega)]
          exact List.getElem?_append_left hi
        · injection h1 with hr
          subst hr
          rw [hhp] at h2
          injection h2 with hs
          subst hs
          refine ⟨rfl, ?_, ?_⟩
          · have hlen : st.heap.length < (st.heap ++ [stored0]).length := by
              simp
            exact List.getElem?_set_eq_of_lt _ hlen
          · have hrlen : r0 < st.heap.length := (List.getElem?_eq_some.mp hhp).1
            show ((st.heap ++ [stored0]).set st.heap.length
                { stored0 with dataRetrievedAt := some now })[r0]?
              = some stored0
            rw [List.getElem?_set_ne (by omega),
              List.getElem?_append_left hrlen]
            exact hhp

/-- **C8 witness**: a concrete call on `"AAPL"` leaves the table and the
stored records unchanged and allocates the stamped copy at the fresh
reference 7. -/
theorem claim_C8_witness :
    (analyze_stock initState "T" "AAPL").2.table = initState.table
    ∧ (analyze_stock initState "T" "AAPL").2.heap[0]? = initState.heap[0]?
    ∧ (analyze_stock initState "T" "AAPL").2.heap[7]?
        = some { AAPL_record with dataRetrievedAt := some "T" } := by
  have h := claim_C8 initState "T" "AAPL"
  have h3 := h.2.2 0 AAPL_record rfl rfl (by decide)
  exact ⟨h.1, h.2.1 0 (by decide), h3.2.1⟩

/-- ℚ-level versions of the band-score bounds. -/
theorem score_pe_ratio_le100 (x : ℚ) : ((score_pe_ratio x : ℕ) : ℚ) ≤ 100 := by
  exact_mod_cast score_pe_ratio_le x

theorem score_roe_le100 (x : ℚ) : ((score_roe x : ℕ) : ℚ) ≤ 100 := by
  exact_mod_cast score_roe_le x

theorem score_ev_ebitda_le100 (x : ℚ) : ((score_ev_ebitda x : ℕ) : ℚ) ≤ 100 := by
  exact_mod_cast score_ev_ebitda_le x

theorem score_eps_le100 (x : ℚ) : ((score_eps x : ℕ) : ℚ) ≤ 100 := by
  exact_mod_cast score_eps_le x

/-- **C5**: the overall score is at most `25 × metricsAnalyzed` (each
valid metric contributes its band score — at most 100 — times the fixed
weight 0.25, never renormalized); in particular a record with exactly
one valid metric whose band score is 100 has overall score exactly 25,
classified "Overvalued". -/
theorem claim_C5 (data : MetricsRecord) :
    (calculate_overall_score data).1
      ≤ 25 * ((calculate_overall_score data).2.2 : ℚ)
    ∧ ((calculate_overall_score data).2.2 = 1 →
        (∀ p ∈ (calculate_overall_score data).2.1, p.2 = 100) →
        (calculate_overall_score data).1 = 25
        ∧ determine_valuation_category (calculate_overall_score data).1
            = "Overvalued") := by
  constructor
  · simp only [calculate_overall_score, ScoringWeights.PE_RATIO,
      ScoringWeights.ROE, ScoringWeights.EV_EBITDA, ScoringWeights.EPS]
    cases hpe : is_valid_metric data.peRatio <;>
      cases hroe : is_valid_metric data.roe <;>
      cases hev : is_valid_metric data.evToEbitda <;>
      cases heps : is_valid_metric data.eps <;>
      simp <;>
      linarith [score_pe_ratio_le100 (data.peRatio.getD 0),
        score_roe_le100 (data.roe.getD 0),
        score_ev_ebitda_le100 (data.evToEbitda.getD 0),
        score_eps_le100 (data.eps.getD 0)]
  · simp only [calculate_overall_score, ScoringWeights.PE_RATIO,
      ScoringWeights.ROE, ScoringWeights.EV_EBITDA, ScoringWeights.EPS]
    cases hpe : is_valid_metric data.peRatio <;>
      cases hroe : is_valid_metric data.roe <;>
      cases hev : is_valid_metric data.evToEbitda <;>
      cases heps : is_valid_metric data.eps <;>
      simp <;>
      (intro h2
       rw [h2]
       norm_num [determine_valuation_category,
         ValuationCategories.UNDERVALUED_THRESHOLD,
         ValuationCategories.FAIRLY_VALUED_THRESHOLD,
         ValuationCategories.UNDERVALUED, ValuationCategories.FAIRLY_VALUED,
         ValuationCategories.OVERVALUED])

/-- The record used to witness C5: exactly one valid metric (ROE), whose
band score is 100. -/
def ONLYROE_record : MetricsRecord :=
  { companyName := "Single Metric Co.", peRatio := none, roe := some 25,
    evToEbitda := none, eps := none, debtToEquity := none,
    marketCap := none, sector := "Unknown", industry := "Unknown",
    closePrice := none, totalScore := none, fundamentalScore := none,
    technicalScore := none, quantScore := none, rank := none,
    tradeDate := "2024-01-15" }

/-- **C5 witness**: one excellent metric gives overall score 25 and
valuation "Overvalued". -/
theorem claim_C5_witness :
    (calculate_overall_score ONLYROE_record).1 = 25
    ∧ determine_valuation_category (calculate_overall_score ONLYROE_record).1
        = "Overvalued" :=
  (claim_C5 ONLYROE_record).2 (by decide) (by decide)

/-- **C10**: a strictly negative stored metric is excluded from scoring
(no breakdown entry, not counted), yet the rationale's display renders
it via the two-decimal formatter rather than `"N/A"`; the display shows
`"N/A"` exactly when the stored value is absent or zero (Python
truthiness), which differs from the validity predicate (present and
strictly positive). -/
theorem claim_C10 (data : MetricsRecord) (v : ℚ)
    (hv : data.peRatio = some v) (hneg : v < 0) :
    pe_display data = format_2f v
    ∧ pe_display data ≠ "N/A"
    ∧ truthy data.peRatio = true
    ∧ is_valid_metric data.peRatio = false
    ∧ (calculate_overall_score data).2.1.lookup "peRatio" = none
    ∧ (calculate_overall_score data).2.2
        = (calculate_overall_score { data with peRatio := none }).2.2
    ∧ (∀ d : MetricsRecord,
        pe_display d = "N/A" ↔ (d.peRatio = none ∨ d.peRatio = some 0)) := by
  have htr' : truthy (some v) = true := by
    simp [truthy, hneg.ne]
  have htr : truthy data.peRatio = true := by
    rw [hv]
    exact htr' 
  have hval : is_valid_metric data.peRatio = false := by
    rw [hv]
    simp [is_valid_metric]
    linarith
  have h1 : pe_display data = format_2f v := by
    simp [pe_display, hv, htr']
  have h2 : pe_display data ≠ "N/A" := by
    rw [h1]
    exact format_2f_ne_NA v
  have hlookup : (calculate_overall_score data).2.1.lookup "peRatio" = none := by
    simp only [calculate_overall_score, hval]
    cases hroe : is_valid_metric data.roe <;>
      cases hev : is_valid_metric data.evToEbitda <;>
      cases heps : is_valid_metric data.eps <;>
      simp [List.lookup]
  have hcount : (calculate_overall_score data).2.2
      = (calculate_overall_score { data with peRatio := none }).2.2 := by
    have hnone : is_valid_metric (none : Option ℚ) = false := rfl
    simp [calculate_overall_score, hval, hnone]
  have hiff : ∀ d : MetricsRecord,
      pe_display d = "N/A" ↔ (d.peRatio = none ∨ d.peRatio = some 0) := by
    intro d
    cases hd : d.peRatio with
    | none => simp [pe_display, truthy, hd]
    | some x =>
      by_cases hx : x = 0
      · subst hx
        simp [pe_display, truthy, hd]
      · simp [pe_display, truthy, hd, hx, format_2f_ne_NA x]
  exact ⟨h1, h2, htr, hval, hlookup, hcount, hiff⟩

/-- The record used to witness C10: a negative stored P/E. -/
def NEGPE_record : MetricsRecord :=
  { companyName := "Negative Co.", peRatio := some (-5), roe := some 15,
    evToEbitda := none, eps := none, debtToEquity := none,
    marketCap := none, sector := "Unknown", industry := "Unknown",
    closePrice := none, totalScore := none, fundamentalScore := none,
    technicalScore := none, quantScore := none, rank := none,
    tradeDate := "2024-01-15" }

/-- **C10 witness**: the negative P/E of -5 is rendered by the
formatter, is invalid for scoring, and produces no breakdown entry. -/
theorem claim_C10_witness :
    pe_display NEGPE_record = format_2f (-5)
    ∧ is_valid_metric NEGPE_record.peRatio = false
    ∧ (calculate_overall_score NEGPE_record).2.1.lookup "peRatio" = none := by
  have h := claim_C10 NEGPE_record (-5) rfl (by norm_num)
  exact ⟨h.1, h.2.2.2.1, h.2.2.2.2.1⟩

end TestFinancial
